import Mathlib

/-!
Verification development for the motchi real-time co-ownership hub
(Go backend, file src/unnamed/part_008).

The hub authenticates websocket connections, keeps a process-wide map from
user id to live connection, derives server-side which pet a request targets,
applies balance mutations, and relays results to the co-owner.  The Lean
definitions below are a shallow embedding of that Go code: SQLite tables
become association lists, each individual SQL statement becomes one pure
operation on the database value, Go int (64-bit, wrap-around on overflow)
becomes Int normalised through wrap64, and the concurrent read-then-write of
validateAndUpdatePetMoney is additionally given as an explicit two-step
interleaving model.
-/

namespace Motchi

/-- Two to the 63rd, the magnitude of the int64 bounds. -/
def int64Half : Int := 9223372036854775808

/-- Go int is 64-bit on the target platforms and Go defines signed overflow
as twos-complement wrap-around; wrap64 maps a mathematical integer to the
int64 value the machine stores. -/
def wrap64 (x : Int) : Int := (x + int64Half) % (2 * int64Half) - int64Half

/-- Arithmetic that stays inside the int64 range is unchanged by wrapping. -/
theorem wrap64_eq_self (x : Int) (hlo : -int64Half ≤ x) (hhi : x < int64Half) :
    wrap64 x = x := by
  unfold wrap64 int64Half at *
  omega

/-- Row of the users table: the pet_id and SO columns are nullable. -/
structure UserRow where
  pet_id : Option Int
  so : Option Int
  deriving DecidableEq, Repr

/-- Row of the pets table (columns of the schema used by part_008). -/
structure PetRow where
  money : Int
  health : Int
  hunger : Int
  happiness : Int
  main_owner : Int
  owner2 : Option Int
  deriving DecidableEq, Repr

/-- The SQLite database: users and pets keyed by their integer primary key. -/
structure Db where
  users : List (Int × UserRow)
  pets : List (Int × PetRow)
  deriving DecidableEq, Repr

/-- SELECT ... FROM users WHERE id = ? (QueryRow takes the first match). -/
def lookupUser (db : Db) (i : Int) : Option UserRow :=
  (db.users.find? (fun x => x.1 == i)).map (fun x => x.2)

/-- SELECT ... FROM pets WHERE id = ?. -/
def lookupPet (db : Db) (i : Int) : Option PetRow :=
  (db.pets.find? (fun x => x.1 == i)).map (fun x => x.2)

/-- SELECT id FROM pets WHERE owner2 = ? (first matching row). -/
def findPetByOwner2 (db : Db) (u : Int) : Option Int :=
  (db.pets.find? (fun x => x.2.owner2 == some u)).map (fun x => x.1)

/-- UPDATE pets SET money = ? WHERE id = ?. -/
def updatePetMoney (db : Db) (i : Int) (m : Int) : Db :=
  { db with
    pets := db.pets.map (fun x => if x.1 == i then (x.1, { x.2 with money := m }) else x) }

/-- Result of validateAndUpdatePetMoney: Go returns (valid bool, newMoney int,
err error) and mutates the database; dbError models a failed query (for the
embedded database the only reachable failure is a missing pet row). -/
inductive VResult
  | dbError (e : String)
  | result (valid : Bool) (newMoney : Int) (db : Db)
  deriving DecidableEq, Repr

/-- Embedding of validateAndUpdatePetMoney (part_008 lines 109-127): read the
money of the pet, reject when amount exceeds currentMoney without writing, otherwise
store currentMoney - amount (as the 64-bit machine computes it) and report
the new value. -/
def validateAndUpdatePetMoney (db : Db) (petID : Int) (amount : Int) : VResult :=
  match lookupPet db petID with
  | none => .dbError "sql: no rows in result set"
  | some row =>
    if amount > row.money then .result false row.money db
    else
      let newMoney := wrap64 (row.money - amount)
      .result true newMoney (updatePetMoney db petID newMoney)

/-- Embedding of validateUserForeignKeys (part_008 lines 73-83): the user row
must exist and both the pet_id and SO columns must be non-NULL. -/
def validateUserForeignKeys (db : Db) (userID : Int) : Except String Unit :=
  match lookupUser db userID with
  | none => .error "sql: no rows in result set"
  | some row =>
    if !row.pet_id.isSome || !row.so.isSome then
      .error "invalid access: user has invalid foreign keys"
    else .ok ()

/-- Embedding of getOtherOwner (part_008 lines 92-99): SELECT CASE WHEN
main_owner = ? THEN owner2 ELSE main_owner END FROM pets WHERE id = ?; the
caller only uses the value when the query succeeded and the result is
non-NULL, so the embedding folds both into Option. -/
def getOtherOwner (db : Db) (petID : Int) (currentOwnerID : Int) : Option Int :=
  match lookupPet db petID with
  | none => none
  | some row => if row.main_owner == currentOwnerID then row.owner2 else some row.main_owner

/-- Inbound mutation message as the Go struct PetMoneyUpdate decodes it
(absent JSON fields decode to the zero value). -/
structure PetMoneyUpdate where
  pet_id : Int
  amount : Int
  deriving DecidableEq, Repr

/-- Outbound websocket payloads written by the mutation branch of
websocketHandler: resultResponse is the JSON object with a type of
ResultResponse, a status, an optional message and an optional newMoney
field; annotatedUpdate is the broadcast of the original message of the caller
with only its pet_id field overwritten by the server-derived value
(part_008 lines 403-407). -/
inductive WireMsg
  | resultResponse (status : String) (message : Option String) (newMoney : Option Int)
  | annotatedUpdate (pet_id : Int) (amount : Int)
  deriving DecidableEq, Repr

/-- The value of the newMoney field of an outbound payload, if it has one;
the annotated broadcast carries no such field. -/
def WireMsg.newMoneyField : WireMsg → Option Int
  | .resultResponse _ _ n => n
  | .annotatedUpdate _ _ => none

/-- The connection registry: the Go map from user id to websocket
connection, as an association list; connection handles are Nat. -/
def lookupConn (conns : List (Int × Nat)) (u : Int) : Option Nat :=
  (conns.find? (fun x => x.1 == u)).map (fun x => x.2)

/-- Server-side derivation of the pet a request targets (part_008 lines
331-368, identical logic at lines 237-273): first the users.pet_id column of the caller; if that is NULL (or the user row is absent, which the
code treats the same as a NULL pet_id), the first pet whose owner2 is the
caller; none means the handler replies that the caller has no pet. -/
def derivePetId (db : Db) (userID : Int) : Option Int :=
  match lookupUser db userID with
  | some row =>
    match row.pet_id with
    | some p => some p
    | none => findPetByOwner2 db userID
  | none => findPetByOwner2 db userID

/-- Everything the mutation branch of websocketHandler does with one inbound
message: the (possibly updated) database, the reply written to the caller,
at most one push (peer user id and payload), and whether the read loop
continues. -/
structure MutationOutcome where
  db : Db
  reply : WireMsg
  push : Option (Int × WireMsg)
  keepOpen : Bool
  deriving DecidableEq, Repr

/-- Embedding of the mutation branch of websocketHandler (part_008 lines
326-414): derive the pet id server-side and overwrite the client-supplied
pet_id, validate-and-update the money, reply to the caller, and on success
push the annotated original message to the other owner when that owner has
a registered connection.  Every branch ends with continue in the Go loop,
so keepOpen is true throughout. -/
def handleMutation (db : Db) (conns : List (Int × Nat)) (userID : Int)
    (msg0 : PetMoneyUpdate) : MutationOutcome :=
  match derivePetId db userID with
  | none =>
    { db := db
      reply := .resultResponse "fail" (some "Caller has no pet to operate on") none
      push := none
      keepOpen := true }
  | some petIDToUse =>
    let msg : PetMoneyUpdate := { msg0 with pet_id := petIDToUse }
    match validateAndUpdatePetMoney db msg.pet_id msg.amount with
    | .dbError _ =>
      { db := db
        reply := .resultResponse "fail" (some "Server error occurred") none
        push := none
        keepOpen := true }
    | .result false _ db2 =>
      { db := db2
        reply := .resultResponse "fail"
          (some "Insufficient funds. Pet money cannot go below 0.") none
        push := none
        keepOpen := true }
    | .result true newMoney db2 =>
      let push :=
        match getOtherOwner db2 msg.pet_id userID with
        | some other =>
          if (lookupConn conns other).isSome then
            some (other, WireMsg.annotatedUpdate msg.pet_id msg.amount)
          else none
        | none => none
      { db := db2
        reply := .resultResponse "success" none (some newMoney)
        push := push
        keepOpen := true }

/-- Accumulating decimal-digit parser: fails on the first non-digit. -/
def parseDigits : List Char → Nat → Option Nat
  | [], acc => some acc
  | c :: cs, acc =>
    if c.isDigit then parseDigits cs (acc * 10 + (c.toNat - 48)) else none

/-- Embedding of strconv.Atoi as websocketHandler uses it: an optional sign
followed by at least one decimal digit (the int64-range check of the Go
function is not modelled; no claim depends on it). -/
def atoi (s : String) : Option Int :=
  match s.data with
  | [] => none
  | '-' :: cs => if cs.isEmpty then none else (parseDigits cs 0).map (fun n => -(n : Int))
  | '+' :: cs => if cs.isEmpty then none else (parseDigits cs 0).map (fun n => (n : Int))
  | cs => (parseDigits cs 0).map (fun n => (n : Int))

/-- Outcome of the pre-read part of websocketHandler: an HTTP error status
written before any upgrade, a failed upgrade (no HTTP error, no registry
entry), or a registered connection for the given user id. -/
inductive WsOutcome
  | rejected (status : Nat)
  | upgradeFailed
  | registered (userID : Int)
  deriving DecidableEq, Repr

/-- Embedding of websocketHandler up to the point the connection is stored
in the connections map (part_008 lines 167-200): bearer-token validation
(tokenUserID is none when ValidationBearerToken fails, otherwise the
user id string carried by the token), rejection of empty and non-numeric user ids, the
foreign-key check, then the upgrade and the registry insert. -/
def websocketAuth (tokenUserID : Option String) (db : Db) (upgradeOk : Bool) : WsOutcome :=
  match tokenUserID with
  | none => .rejected 401
  | some s =>
    if s = "" then .rejected 401
    else
      match atoi s with
      | none => .rejected 400
      | some uid =>
        match validateUserForeignKeys db uid with
        | .error _ => .rejected 403
        | .ok _ => if upgradeOk then .registered uid else .upgradeFailed

/-- Registry-plus-sockets state: the connections map and the set (list) of
connection handles on which Close has been called. -/
structure RegState where
  conns : List (Int × Nat)
  closed : List Nat
  deriving DecidableEq, Repr

/-- Embedding of the registration step (part_008 lines 198-200): the map
assignment connections[userID] = conn under the mutex.  Nothing is closed
here; the prior entry, if any, is only overwritten. -/
def RegState.register (s : RegState) (u : Int) (c : Nat) : RegState :=
  { s with conns := (u, c) :: s.conns.filter (fun x => !(x.1 == u)) }

/-- Embedding of the deferred cleanup closure (part_008 lines 202-209).  The
closure shadows the connection owned by the handler with whatever is currently in
the map (if conn, ok := connections[userID]), so myConn — the connection
this session handler owns — is never consulted: whichever connection is
registered for the user id is closed and deleted. -/
def RegState.cleanup (s : RegState) (u : Int) (_myConn : Nat) : RegState :=
  match lookupConn s.conns u with
  | some c =>
    { conns := s.conns.filter (fun x => !(x.1 == u))
      closed := c :: s.closed }
  | none => s

/-- The ticker period of sendPingMessages (part_008 line 144), in seconds. -/
def pingPeriodSeconds : Nat := 60

/-- Liveness-monitor state: the registry and whether the ticker of the goroutine
has been stopped.  The Go loop (for range pingTicker.C) never breaks, so no
transition below ever sets tickerStopped. -/
structure MonState where
  reg : RegState
  tickerStopped : Bool
  deriving DecidableEq, Repr

/-- One tick of sendPingMessages (part_008 lines 147-157): under the mutex,
if a connection is registered for the user, write a ping; when the write
errors the connection is closed and deleted, otherwise nothing changes.
writeOk says whether WriteMessage succeeded. -/
def MonState.pingTick (s : MonState) (userID : Int) (writeOk : Bool) : MonState :=
  match lookupConn s.reg.conns userID with
  | some c =>
    if writeOk then s
    else
      { s with reg := { conns := s.reg.conns.filter (fun x => !(x.1 == userID))
                        closed := c :: s.reg.closed } }
  | none => s

/-- The pong handler installed at part_008 lines 211-214 only logs; receipt
or absence of a pong changes no state. -/
def MonState.pongReceive (s : MonState) (_userID : Int) : MonState := s

/-- One in-flight validateAndUpdatePetMoney call in the interleaving model:
its amount, the money value its SELECT returned (none before the SELECT
ran), and its final outcome (none while unfinished). -/
structure Txn where
  amount : Int
  readVal : Option Int
  result : Option Bool
  deriving DecidableEq, Repr

/-- One atomic database statement of a transaction against the shared money
value: the SELECT step records the current money; the second step is the Go
code between the two statements plus the UPDATE — compare the amount with
the value read and either finish rejected or write wrap64(read - amount)
and finish accepted.  There is no lock or SQL transaction around the two
statements in part_008 lines 109-127, so steps of the two callers may
interleave arbitrarily; SQLite serialises only each single statement. -/
def Txn.step (money : Int) (t : Txn) : Int × Txn :=
  match t.readVal with
  | none => (money, { t with readVal := some money })
  | some cur =>
    match t.result with
    | some _ => (money, t)
    | none =>
      if t.amount > cur then (money, { t with result := some false })
      else (wrap64 (cur - t.amount), { t with result := some true })

/-- Shared state for two concurrent mutation calls on the same pet: the
stored money and the transaction states of the two callers. -/
structure ConcState where
  money : Int
  t0 : Txn
  t1 : Txn
  deriving DecidableEq, Repr

/-- Run the next statement of caller false (t0) or caller true (t1). -/
def ConcState.step (s : ConcState) (i : Bool) : ConcState :=
  if i then
    let r := Txn.step s.money s.t1
    { s with money := r.1, t1 := r.2 }
  else
    let r := Txn.step s.money s.t0
    { s with money := r.1, t0 := r.2 }

/-- Execute a schedule: the interleaving of the statements of the two callers. -/
def ConcState.run (s : ConcState) (sched : List Bool) : ConcState :=
  sched.foldl ConcState.step s

/-- Pet 1 with zero money, co-owned setup. -/
def dbMoneyZero : Db :=
  ⟨[(1, ⟨some 1, some 2⟩)], [(1, ⟨0, 100, 100, 100, 1, none⟩)]⟩

/-- Pet 1 holding the largest int64 balance. -/
def dbMoneyMax : Db :=
  ⟨[], [(1, ⟨int64Half - 1, 100, 100, 100, 1, none⟩)]⟩

/-- Pet 3 with a small balance, used for witnesses. -/
def dbSmall : Db := ⟨[], [(3, ⟨5, 100, 100, 100, 1, none⟩)]⟩

/-- C1: the claim says every value validateAndUpdatePetMoney stores is
non-negative (it writes exactly m - amount and only when amount is at most
m).  On a pet with money 0 the request amount -2^63 passes the validation
(-2^63 is at most 0) but the 64-bit difference 0 - (-2^63) wraps around to
-2^63, so the update stores a negative balance: the code violates its own
rule that pet money cannot go below 0. -/
theorem C1_overflow_stores_negative_money :
    validateAndUpdatePetMoney dbMoneyZero 1 (-int64Half) =
      VResult.result true (-int64Half)
        ⟨[(1, ⟨some 1, some 2⟩)], [(1, ⟨-int64Half, 100, 100, 100, 1, none⟩)]⟩ ∧
    -int64Half < 0 := by
  decide

/-- Two callers each spending 6 against a shared balance of 10. -/
def raceInit : ConcState := ⟨10, ⟨6, none, none⟩, ⟨6, none, none⟩⟩

/-- C2: the claim says two simultaneous amount-6 mutations of a balance of
10 serialize so that exactly one succeeds.  validateAndUpdatePetMoney runs
its SELECT and its UPDATE as two separate statements with no lock or SQL
transaction, so the schedule in which both callers SELECT before either
UPDATEs is possible; under it both callers read 10, both pass validation,
both write 4 and both report success — the second delta is silently lost
rather than rejected. -/
theorem C2_lost_update_both_succeed :
    ConcState.run raceInit [false, true, false, true] =
      ⟨4, ⟨6, some 10, some true⟩, ⟨6, some 10, some true⟩⟩ := by
  decide

/-- C10 counterexample: the claim says every negative amount increases the
stored balance by its magnitude with no upper bound.  At the int64 maximum
balance, a deposit of 1 wraps to -2^63: the balance drops instead of
growing, so the resulting balance is bounded by the machine word. -/
theorem C10_deposit_overflow_wraps :
    validateAndUpdatePetMoney dbMoneyMax 1 (-1) =
      VResult.result true (-int64Half)
        ⟨[], [(1, ⟨-int64Half, 100, 100, 100, 1, none⟩)]⟩ ∧
    -int64Half < int64Half - 1 := by
  decide

/-- C10 (amended): amount is a spend — when the pet exists, any amount at
most the current money succeeds and stores exactly money - amount, provided
that difference fits in int64; and a negative amount then strictly
increases the balance. -/
theorem C10_spend_and_deposit_semantics (db : Db) (p amount : Int) (row : PetRow)
    (hP : lookupPet db p = some row)
    (hle : amount ≤ row.money)
    (hlo : -int64Half ≤ row.money - amount)
    (hhi : row.money - amount < int64Half) :
    validateAndUpdatePetMoney db p amount =
      VResult.result true (row.money - amount)
        (updatePetMoney db p (row.money - amount)) ∧
    (amount < 0 → row.money < row.money - amount) := by
  constructor
  · simp only [validateAndUpdatePetMoney, hP]
    rw [if_neg (by omega), wrap64_eq_self _ hlo hhi]
  · intro h
    omega

/-- C10 witness: spending -3 (a deposit) from a balance of 5 succeeds and
stores 8. -/
theorem C10_spend_and_deposit_witness :
    validateAndUpdatePetMoney dbSmall 3 (-3) =
      VResult.result true (5 - (-3)) (updatePetMoney dbSmall 3 (5 - (-3))) ∧
    ((-3 : Int) < 0 → (5 : Int) < 5 - (-3)) :=
  C10_spend_and_deposit_semantics dbSmall 3 (-3) ⟨5, 100, 100, 100, 1, none⟩
    (by decide) (by decide) (by decide) (by decide)

/-- Filtering a key back out of a list from which it was just filtered away
leaves nothing. -/
theorem filter_key_elim (u : Int) (l : List (Int × Nat)) :
    (l.filter (fun x => !(x.1 == u))).filter (fun x => x.1 == u) = [] := by
  induction l with
  | nil => rfl
  | cons a t ih =>
    by_cases h : a.1 = u
    · simp [List.filter_cons, h, ih]
    · simp [List.filter_cons, h, ih]

/-- Registry holding a prior connection 1 for user 7. -/
def regPrior : RegState := ⟨[(7, 1)], []⟩

/-- Registry holding the newer connection 2 for user 7, as it stands after
a reconnect has registered. -/
def regNewer : RegState := ⟨[(7, 2)], []⟩

/-- C5 counterexample: the claim says registering a new connection for an
identity closes the prior connection at registration time.  The map
assignment at part_008 lines 198-200 only overwrites the entry: after
connection 2 registers for user 7, connection 1 — the prior connection —
is not in the closed set. -/
theorem C5_prior_connection_not_closed :
    lookupConn regPrior.conns 7 = some 1 ∧
    lookupConn (regPrior.register 7 2).conns 7 = some 2 ∧
    (regPrior.register 7 2).closed = [] := by
  decide

/-- C5 (amended): registration replaces the registry entry, so lookup for
the identity afterwards reaches exactly the new connection and the identity
has exactly one registry entry; but nothing is closed at registration. -/
theorem C5_register_replaces_entry (s : RegState) (u : Int) (c : Nat) :
    lookupConn (s.register u c).conns u = some c ∧
    (s.register u c).closed = s.closed ∧
    (s.register u c).conns.filter (fun x => x.1 == u) = [(u, c)] := by
  refine ⟨?_, rfl, ?_⟩
  · simp [RegState.register, lookupConn]
  · simp [RegState.register, List.filter_cons, filter_key_elim]

/-- C6: the claim says the cleanup of a terminating session handler removes the
registry mapping only when the registered connection is the one that
handler owns.  The deferred closure at part_008 lines 202-209 shadows the
connection owned by the handler with the map value and closes it unconditionally:
here the handler that owned the stale connection 1 closes and unregisters
the newer connection 2. -/
theorem C6_stale_cleanup_closes_newer_connection :
    regNewer.cleanup 7 1 = (⟨[], [2]⟩ : RegState) := by
  decide

/-- Monitor state with connection 1 registered for user 7 and the ticker
running. -/
def monLive : MonState := ⟨⟨[(7, 1)], []⟩, false⟩

/-- C7 counterexample: the claim says a connection whose pong does not
arrive before the next tick is closed and removed, and that the timer stops
when the connection ends.  In the code the pong handler only logs, so two
consecutive ticks with no pong in between leave the connection registered
and unclosed as long as the ping writes succeed; and when a failed ping
write does remove the connection, the ticker goroutine keeps running —
nothing ever stops it. -/
theorem C7_no_pong_deadline_and_ticker_never_stops :
    (monLive.pingTick 7 true).pingTick 7 true = monLive ∧
    monLive.pongReceive 7 = monLive ∧
    (monLive.pingTick 7 false).reg = (⟨[], [1]⟩ : RegState) ∧
    (monLive.pingTick 7 false).tickerStopped = false := by
  decide

/-- C7 (amended): each 60-second tick pings whatever connection is
currently registered for the user; a successful write changes nothing, a
failed write closes the connection and removes it from the registry; a
pong changes no state, and no transition stops the ticker. -/
theorem C7_ping_monitor_behavior (s : MonState) (u : Int) (c : Nat)
    (h : lookupConn s.reg.conns u = some c) :
    s.pingTick u true = s ∧
    (s.pingTick u false).reg.conns = s.reg.conns.filter (fun x => !(x.1 == u)) ∧
    (s.pingTick u false).reg.closed = c :: s.reg.closed ∧
    s.pongReceive u = s ∧
    (s.pingTick u false).tickerStopped = s.tickerStopped ∧
    pingPeriodSeconds = 60 := by
  simp [MonState.pingTick, MonState.pongReceive, h, pingPeriodSeconds]

/-- C7 witness: the amended behavior at the concrete monitor state. -/
theorem C7_ping_monitor_witness :
    monLive.pingTick 7 true = monLive ∧
    (monLive.pingTick 7 false).reg.conns
      = monLive.reg.conns.filter (fun x => !(x.1 == 7)) ∧
    (monLive.pingTick 7 false).reg.closed = 1 :: monLive.reg.closed ∧
    monLive.pongReceive 7 = monLive ∧
    (monLive.pingTick 7 false).tickerStopped = monLive.tickerStopped ∧
    pingPeriodSeconds = 60 :=
  C7_ping_monitor_behavior monLive 7 1 (by decide)

/-- Finding a key in the list after the money-update map is finding it
before and then updating the found row. -/
theorem find?_map_money (p m : Int) (ps : List (Int × PetRow)) :
    (ps.map (fun x => if x.1 == p then (x.1, { x.2 with money := m }) else x)).find?
        (fun x => x.1 == p) =
      (ps.find? (fun x => x.1 == p)).map
        (fun x => (x.1, { x.2 with money := m })) := by
  induction ps with
  | nil => rfl
  | cons a t ih =>
    by_cases h : (a.1 == p) = true
    · rw [List.map_cons, if_pos h, List.find?_cons, List.find?_cons]
      simp [h]
    · have hb : (a.1 == p) = false := by simpa using h
      rw [List.map_cons, if_neg h, List.find?_cons, List.find?_cons]
      simp only [hb]
      exact ih

/-- Updating the money of a pet changes nothing but the money field of the
row of that pet. -/
theorem lookupPet_updatePetMoney_self (db : Db) (p m : Int) :
    lookupPet (updatePetMoney db p m) p =
      (lookupPet db p).map (fun r => { r with money := m }) := by
  simp only [lookupPet, updatePetMoney, find?_map_money]
  cases db.pets.find? (fun x => x.1 == p) <;> rfl

/-- The other owner of a pet is unaffected by a money update on that pet. -/
theorem getOtherOwner_updatePetMoney (db : Db) (p m u : Int) :
    getOtherOwner (updatePetMoney db p m) p u = getOtherOwner db p u := by
  unfold getOtherOwner
  rw [lookupPet_updatePetMoney_self]
  cases lookupPet db p <;> simp

/-- Two co-owners: user 1 is main owner of pet 10 via users.pet_id, user 2
is owner2 of pet 10 (with a NULL pet_id column); pet 10 holds 10 money. -/
def dbCoowned : Db :=
  ⟨[(1, ⟨some 10, some 2⟩), (2, ⟨none, some 1⟩)],
   [(10, ⟨10, 100, 100, 100, 1, some 2⟩)]⟩

/-- Both owners have registered connections. -/
def connsBoth : List (Int × Nat) := [(1, 100), (2, 200)]

/-- C3 counterexample: the claim says the peer receives a MutationResult-
shaped push carrying the same new balance the caller was told.  In the
concrete scenario (balance 10, amount 4) the reply to the caller carries
newMoney 6 but the push to the peer is the annotated original request — pet_id
and amount — which has no newMoney field at all. -/
theorem C3_push_lacks_new_balance :
    (handleMutation dbCoowned connsBoth 1 ⟨10, 4⟩).reply =
      WireMsg.resultResponse "success" none (some 6) ∧
    (handleMutation dbCoowned connsBoth 1 ⟨10, 4⟩).push =
      some (2, WireMsg.annotatedUpdate 10 4) ∧
    WireMsg.newMoneyField (WireMsg.annotatedUpdate 10 4) = none := by
  decide

/-- C3 (amended): on a successful mutation the reply to the caller carries the
new balance; the peer — when the pet has another owner and that owner has
a registered connection — receives a push of the original request message
annotated with the server-resolved pet id, which carries no balance; when
the other owner is absent or unregistered, nothing is pushed. -/
theorem C3_reply_and_annotated_push (db : Db) (conns : List (Int × Nat)) (u : Int)
    (msg : PetMoneyUpdate) (p : Int) (row : PetRow)
    (hD : derivePetId db u = some p)
    (hP : lookupPet db p = some row)
    (hle : msg.amount ≤ row.money) :
    (handleMutation db conns u msg).reply =
      WireMsg.resultResponse "success" none (some (wrap64 (row.money - msg.amount))) ∧
    (handleMutation db conns u msg).push =
      (match getOtherOwner db p u with
       | some peer =>
         if (lookupConn conns peer).isSome then
           some (peer, WireMsg.annotatedUpdate p msg.amount)
         else none
       | none => none) ∧
    (∀ pr m2, (handleMutation db conns u msg).push = some (pr, m2) →
      m2.newMoneyField = none) := by
  have hv : validateAndUpdatePetMoney db p msg.amount =
      VResult.result true (wrap64 (row.money - msg.amount))
        (updatePetMoney db p (wrap64 (row.money - msg.amount))) := by
    simp only [validateAndUpdatePetMoney, hP]
    rw [if_neg (by omega)]
  have hmain : handleMutation db conns u msg =
      { db := updatePetMoney db p (wrap64 (row.money - msg.amount))
        reply := WireMsg.resultResponse "success" none
          (some (wrap64 (row.money - msg.amount)))
        push :=
          (match getOtherOwner db p u with
           | some peer =>
             if (lookupConn conns peer).isSome then
               some (peer, WireMsg.annotatedUpdate p msg.amount)
             else none
           | none => none)
        keepOpen := true } := by
    simp only [handleMutation, hD, hv, getOtherOwner_updatePetMoney]
  refine ⟨by rw [hmain], by rw [hmain], ?_⟩
  intro pr m2 hpush
  rw [hmain] at hpush
  cases hgo : getOtherOwner db p u with
  | none => rw [hgo] at hpush; simp at hpush
  | some other =>
    rw [hgo] at hpush
    by_cases hc : (lookupConn conns other).isSome
    · simp only [hc, if_true] at hpush
      have h2 : WireMsg.annotatedUpdate p msg.amount = m2 :=
        congrArg Prod.snd (Option.some.inj hpush)
      subst h2
      rfl
    · simp [hc] at hpush

/-- C3 witness: the amended statement at the concrete co-owned database. -/
theorem C3_reply_and_annotated_push_witness :
    (handleMutation dbCoowned connsBoth 1 ⟨10, 4⟩).reply =
      WireMsg.resultResponse "success" none (some (wrap64 (10 - 4))) ∧
    (handleMutation dbCoowned connsBoth 1 ⟨10, 4⟩).push =
      some (2, WireMsg.annotatedUpdate 10 4) ∧
    (∀ pr m2, (handleMutation dbCoowned connsBoth 1 ⟨10, 4⟩).push = some (pr, m2) →
      m2.newMoneyField = none) :=
  C3_reply_and_annotated_push dbCoowned connsBoth 1 (⟨10, 4⟩ : PetMoneyUpdate) 10
    (⟨10, 100, 100, 100, 1, some 2⟩ : PetRow) (by decide) (by decide) (by decide)

/-- C4: a mutation whose amount exceeds the stored balance leaves the
database untouched, replies the insufficient-funds failure to the caller,
pushes nothing to the peer, and keeps the connection open. -/
theorem C4_insufficient_funds_rejection (db : Db) (conns : List (Int × Nat)) (u : Int)
    (msg : PetMoneyUpdate) (p : Int) (row : PetRow)
    (hD : derivePetId db u = some p)
    (hP : lookupPet db p = some row)
    (hgt : msg.amount > row.money) :
    handleMutation db conns u msg =
      { db := db
        reply := WireMsg.resultResponse "fail"
          (some "Insufficient funds. Pet money cannot go below 0.") none
        push := none
        keepOpen := true } := by
  have hv : validateAndUpdatePetMoney db p msg.amount =
      VResult.result false row.money db := by
    simp only [validateAndUpdatePetMoney, hP]
    rw [if_pos hgt]
  simp only [handleMutation, hD, hv]

/-- C4 witness: requesting 100 against a balance of 10 is rejected with the
insufficient-funds message and no state change. -/
theorem C4_insufficient_funds_witness :
    handleMutation dbCoowned connsBoth 1 ⟨10, 100⟩ =
      { db := dbCoowned
        reply := WireMsg.resultResponse "fail"
          (some "Insufficient funds. Pet money cannot go below 0.") none
        push := none
        keepOpen := true } :=
  C4_insufficient_funds_rejection dbCoowned connsBoth 1 (⟨10, 100⟩ : PetMoneyUpdate) 10
    (⟨10, 100, 100, 100, 1, some 2⟩ : PetRow) (by decide) (by decide) (by decide)

/-- C8: the outcome of a mutation — updated database, reply, push and loop
disposition — is identical for any two inbound messages from the same user
that differ only in their client-supplied pet_id: the handler overwrites
that field with the server-derived pet id (users.pet_id first, else the pet
whose owner2 is the caller) before using it. -/
theorem C8_outcome_independent_of_client_pet_id (db : Db) (conns : List (Int × Nat))
    (u a p1 p2 : Int) :
    handleMutation db conns u ⟨p1, a⟩ = handleMutation db conns u ⟨p2, a⟩ := rfl

/-- C9: whenever the websocket pre-read pipeline ends with a registered
connection for user u, the users row for u exists and its pet_id and SO
columns are both non-NULL — requests failing token validation or the
foreign-key check are rejected with an HTTP status before any registry
entry is created. -/
theorem C9_registered_user_has_valid_foreign_keys (tok : Option String) (db : Db)
    (up : Bool) (u : Int)
    (h : websocketAuth tok db up = WsOutcome.registered u) :
    ∃ row, lookupUser db u = some row ∧
      row.pet_id.isSome = true ∧ row.so.isSome = true := by
  unfold websocketAuth at h
  split at h
  · simp at h
  · split at h
    · simp at h
    · split at h
      · simp at h
      · split at h
        · simp at h
        · split at h
          · rename_i uid hti w hv hup
            cases h
            unfold validateUserForeignKeys at hv
            split at hv
            · simp at hv
            · rename_i row hl
              split at hv
              · simp at hv
              · rename_i hbo
                have h1 : row.pet_id.isSome = true := by
                  cases hx : row.pet_id.isSome
                  · exact absurd (by simp [hx]) hbo
                  · rfl
                have h2 : row.so.isSome = true := by
                  cases hx : row.so.isSome
                  · exact absurd (by simp [hx]) hbo
                  · rfl
                exact ⟨row, hl, h1, h2⟩
          · simp at h

/-- A user whose row has both foreign keys set. -/
def dbAuthOk : Db := ⟨[(1, ⟨some 10, some 2⟩)], []⟩

/-- C9 witness: a valid user-scoped token for user 1 reaches registration,
and the row of user 1 indeed has both columns set. -/
theorem C9_registered_user_witness :
    ∃ row, lookupUser dbAuthOk 1 = some row ∧
      row.pet_id.isSome = true ∧ row.so.isSome = true :=
  C9_registered_user_has_valid_foreign_keys (some "1") dbAuthOk true 1 (by decide)

end Motchi
